import Mathlib

/-!
Shallow embedding of `src/quick.py`, a two-stage build-pipeline
orchestrator: it runs `cargo expand` on the `eucalyptus-core` library,
stages the captured standard output to `target/generated/expanded.rs`
under the workspace root, and then runs `cbindgen` to produce
`headers/dropbear.h`.

External subprocesses are modelled by an oracle
`exec : Invocation → ProcResult` giving the exit code and the captured
standard output / standard error text of each invocation.  The
filesystem is modelled by the set of existing directories together with
an association list from file paths to their text content.  `main`
mirrors the Python `main()` line by line; it returns `none` exactly when
a file write would raise because the parent directory does not exist
(which we prove never happens), and otherwise the run's exit code, final
filesystem, the list of subprocess invocations performed, and the lines
printed to standard output and to standard error.
-/

namespace Dropbear

/-- A filesystem path, as the list of its segments from the filesystem root. -/
abbrev FsPath := List String

/-- Python `Path.name`: the final path component (empty for the root). -/
def FsPath.name (p : FsPath) : String := p.getLastD ""

/-- Python `Path.parent`: the path without its final component. -/
def FsPath.parent (p : FsPath) : FsPath := p.dropLast

/-- Python `str(path)`: render an absolute path as a string. -/
def FsPath.str (p : FsPath) : String := "/" ++ String.intercalate "/" p

/-- The outcome of one external tool invocation, as captured by
`subprocess.run(..., capture_output=True, text=True)`. -/
structure ProcResult where
  returncode : Int
  stdout : String
  stderr : String
deriving DecidableEq

/-- One subprocess invocation: the argument vector passed to
`subprocess.run` and the working directory (`cwd=`). -/
structure Invocation where
  args : List String
  cwd : FsPath
deriving DecidableEq

/-- The filesystem: the set of existing directories and the text files. -/
structure FS where
  dirs : List FsPath
  files : List (FsPath × String)
deriving DecidableEq

/-- All ancestors of a path, the path itself included. -/
def prefixesOf : List String → List (List String)
  | [] => [([] : List String)]
  | a :: as => [] :: (prefixesOf as).map (fun q => a :: q)

/-- Python `path.mkdir(parents=True, exist_ok=True)`: create the directory and
every missing ancestor; never fails on pre-existing directories. -/
def FS.mkdirParents (fs : FS) (p : FsPath) : FS :=
  { fs with dirs := prefixesOf p ++ fs.dirs }

/-- Python `path.write_text(content)`: overwrite the file's content, raising
(`none`) when the parent directory does not exist. -/
def FS.writeText (fs : FS) (p : FsPath) (content : String) : Option FS :=
  if p.dropLast ∈ fs.dirs then
    some { fs with files := (p, content) :: fs.files }
  else
    none

/-- Read a file's content, `none` when it does not exist. -/
def FS.read (fs : FS) (p : FsPath) : Option String :=
  (fs.files.find? (fun e => e.1 == p)).map (fun e => e.2)

/-- What one run of the pipeline did: the process exit code, the final
filesystem, the subprocess invocations performed in order, and the lines
printed to standard output and to standard error. -/
structure RunOutput where
  exitCode : Nat
  fs : FS
  invocations : List Invocation
  stdoutMsgs : List String
  stderrMsgs : List String
deriving DecidableEq

/-- Line 9 of `quick.py`:
`root_dir = script_dir.parent if script_dir.name == "scripts" else script_dir`. -/
def resolveRoot (script_dir : FsPath) : FsPath :=
  if FsPath.name script_dir = "scripts" then FsPath.parent script_dir else script_dir

/-- The `cargo expand` invocation (lines 14–19). -/
def expandInv (script_dir : FsPath) : Invocation :=
  ⟨["cargo", "expand", "--lib", "-p", "eucalyptus-core"], resolveRoot script_dir⟩

/-- The staged artifact path `target/generated/expanded.rs` under the root. -/
def stagedPath (script_dir : FsPath) : FsPath :=
  resolveRoot script_dir ++ ["target", "generated", "expanded.rs"]

/-- The output header path `headers/dropbear.h` under the root. -/
def headerPath (script_dir : FsPath) : FsPath :=
  resolveRoot script_dir ++ ["headers", "dropbear.h"]

/-- The `cbindgen` invocation (lines 44–54). -/
def cbindgenInv (script_dir : FsPath) : Invocation :=
  ⟨["cbindgen",
    "--config", FsPath.str (resolveRoot script_dir ++ ["cbindgen.toml"]),
    "--output", FsPath.str (headerPath script_dir),
    FsPath.str (stagedPath script_dir)],
   resolveRoot script_dir⟩

/-- The `main()` function of `quick.py`, given the resolved script
directory, the subprocess oracle and the initial filesystem. -/
def main (script_dir : FsPath) (exec : Invocation → ProcResult) (fs0 : FS) :
    Option RunOutput :=
  let root_dir := resolveRoot script_dir
  let out0 := ["Expanding macros for eucalyptus-core..."]
  let r1 := exec (expandInv script_dir)
  if r1.returncode ≠ 0 then
    some ⟨1, fs0, [expandInv script_dir], out0,
          ["Error: cargo expand failed", r1.stderr]⟩
  else
    let expanded_code := r1.stdout
    let temp_dir := root_dir ++ ["target", "generated"]
    let fs1 := fs0.mkdirParents temp_dir
    let temp_file := temp_dir ++ ["expanded.rs"]
    let out1 := out0 ++ ["Writing expanded code to " ++ FsPath.str temp_file]
    match fs1.writeText temp_file expanded_code with
    | none => none
    | some fs2 =>
      let out2 := out1 ++ ["Generating C bindings..."]
      let output_file := root_dir ++ ["headers", "dropbear.h"]
      let fs3 := fs2.mkdirParents (FsPath.parent output_file)
      let r2 := exec (cbindgenInv script_dir)
      if r2.returncode ≠ 0 then
        some ⟨1, fs3, [expandInv script_dir, cbindgenInv script_dir], out2,
              ["Error: cbindgen failed", r2.stderr]⟩
      else
        some ⟨0, fs3, [expandInv script_dir, cbindgenInv script_dir],
              out2 ++ ["✓ Generated " ++ FsPath.str output_file], []⟩

/-! ### Helper lemmas -/

theorem mem_prefixesOf_append (l1 l2 : List String) : l1 ∈ prefixesOf (l1 ++ l2) := by
  induction l1 with
  | nil => cases l2 <;> simp [prefixesOf]
  | cons a as ih =>
    simp only [List.cons_append, prefixesOf, List.mem_cons, List.mem_map]
    exact Or.inr ⟨as, ih, rfl⟩

theorem mem_prefixesOf_self (l : List String) : l ∈ prefixesOf l := by
  simpa using mem_prefixesOf_append l []

theorem dropLast_append_singleton (l : List String) (a : String) :
    (l ++ [a]).dropLast = l := by simp

theorem dropLast_append_pair (l : List String) (a b : String) :
    (l ++ [a, b]).dropLast = l ++ [a] := by
  simp

/-- Writing the file right after creating its parent directory succeeds. -/
theorem writeText_mkdirParents (fs : FS) (d : FsPath) (a : String) (c : String) :
    (fs.mkdirParents d).writeText (d ++ [a]) c =
      some ⟨prefixesOf d ++ fs.dirs, (d ++ [a], c) :: fs.files⟩ := by
  simp [FS.writeText, FS.mkdirParents, dropLast_append_singleton,
    mem_prefixesOf_self]

/-- The filesystem at the end of a run whose macro expansion succeeded. -/
def mainFS (script_dir : FsPath) (exec : Invocation → ProcResult) (fs0 : FS) : FS :=
  ⟨prefixesOf (resolveRoot script_dir ++ ["headers"]) ++
     (prefixesOf (resolveRoot script_dir ++ ["target", "generated"]) ++ fs0.dirs),
   (stagedPath script_dir, (exec (expandInv script_dir)).stdout) :: fs0.files⟩

/-- The standard-output lines of a run that reached the cbindgen invocation. -/
def stagedMsgs (script_dir : FsPath) : List String :=
  ["Expanding macros for eucalyptus-core...",
   "Writing expanded code to " ++ FsPath.str (stagedPath script_dir),
   "Generating C bindings..."]

/-- Characterization of a run whose macro expansion fails. -/
theorem main_of_expand_fail (sd : FsPath) (ex : Invocation → ProcResult) (fs0 : FS)
    (h : (ex (expandInv sd)).returncode ≠ 0) :
    main sd ex fs0 = some ⟨1, fs0, [expandInv sd],
      ["Expanding macros for eucalyptus-core..."],
      ["Error: cargo expand failed", (ex (expandInv sd)).stderr]⟩ := by
  simp [main, h]

/-- Characterization of a run whose macro expansion succeeds but whose
binding generation fails. -/
theorem main_of_cbindgen_fail (sd : FsPath) (ex : Invocation → ProcResult) (fs0 : FS)
    (h1 : (ex (expandInv sd)).returncode = 0)
    (h2 : (ex (cbindgenInv sd)).returncode ≠ 0) :
    main sd ex fs0 = some ⟨1, mainFS sd ex fs0, [expandInv sd, cbindgenInv sd],
      stagedMsgs sd,
      ["Error: cbindgen failed", (ex (cbindgenInv sd)).stderr]⟩ := by
  simp only [main, h1, ne_eq, not_true_eq_false, if_false, ite_false,
    reduceIte, writeText_mkdirParents]
  simp [h2, mainFS, stagedMsgs, stagedPath, FsPath.parent,
    dropLast_append_pair, FS.mkdirParents]

/-- Characterization of a fully successful run. -/
theorem main_of_ok (sd : FsPath) (ex : Invocation → ProcResult) (fs0 : FS)
    (h1 : (ex (expandInv sd)).returncode = 0)
    (h2 : (ex (cbindgenInv sd)).returncode = 0) :
    main sd ex fs0 = some ⟨0, mainFS sd ex fs0, [expandInv sd, cbindgenInv sd],
      stagedMsgs sd ++ ["✓ Generated " ++ FsPath.str (headerPath sd)], []⟩ := by
  simp only [main, h1, ne_eq, not_true_eq_false, if_false, ite_false,
    reduceIte, writeText_mkdirParents]
  simp [h2, mainFS, stagedMsgs, stagedPath, headerPath, FsPath.parent,
    dropLast_append_pair, FS.mkdirParents]

theorem cbindgenInv_ne_expandInv (sd : FsPath) : cbindgenInv sd ≠ expandInv sd := by
  intro h
  have hh := congrArg (fun i => i.args.headD "") h
  simp [cbindgenInv, expandInv] at hh

/-! ### Concrete tool stubs and workspaces, for witnesses -/

/-- A stub toolchain: expansion prints a declaration, binding generation
succeeds silently. -/
def exOkW : Invocation → ProcResult := fun i =>
  if i.args.headD "" = "cargo" then ⟨0, "pub fn foo();", ""⟩ else ⟨0, "", ""⟩

/-- A stub toolchain whose macro expansion fails with exit code 101. -/
def exExpandFailW : Invocation → ProcResult := fun i =>
  if i.args.headD "" = "cargo" then ⟨101, "", "error: could not expand"⟩
  else ⟨0, "", ""⟩

/-- A stub toolchain whose expansion succeeds and whose binding
generation fails with stderr `bad config`. -/
def exCbindgenFailW : Invocation → ProcResult := fun i =>
  if i.args.headD "" = "cargo" then ⟨0, "pub fn foo();", ""⟩
  else ⟨1, "", "bad config"⟩

/-- A stub toolchain where every tool succeeds with empty output. -/
def exEmptyOutW : Invocation → ProcResult := fun _ => ⟨0, "", ""⟩

/-- A stub toolchain succeeding with stderr noise `warning A`. -/
def exNoiseAW : Invocation → ProcResult := fun _ => ⟨0, "pub fn foo();", "warning A"⟩

/-- A stub toolchain succeeding with stderr noise `warning B`. -/
def exNoiseBW : Invocation → ProcResult := fun _ => ⟨0, "pub fn foo();", "warning B"⟩

/-- An empty workspace filesystem: no directories, no files. -/
def fsEmptyW : FS := ⟨[], []⟩

/-! ### Claims -/

/-- C2: if the macro-expansion subprocess exits non-zero, the pipeline
prints the fixed label `Error: cargo expand failed` followed by the
tool's captured stderr to the error channel, exits with code 1, performs
only the expansion invocation (the Artifact Stager and the Binding
Generation Stage never run), and leaves the filesystem exactly as it
was: no directory created, no file written. -/
theorem c2_expand_fail_aborts_without_side_effects
    (sd : FsPath) (ex : Invocation → ProcResult) (fs0 : FS)
    (h : (ex (expandInv sd)).returncode ≠ 0) :
    main sd ex fs0 = some ⟨1, fs0, [expandInv sd],
      ["Expanding macros for eucalyptus-core..."],
      ["Error: cargo expand failed", (ex (expandInv sd)).stderr]⟩ :=
  main_of_expand_fail sd ex fs0 h

/-- C2 witness: a concrete failing expansion stub. -/
theorem c2_witness :
    main ["ws"] exExpandFailW fsEmptyW = some ⟨1, fsEmptyW, [expandInv ["ws"]],
      ["Expanding macros for eucalyptus-core..."],
      ["Error: cargo expand failed", (exExpandFailW (expandInv ["ws"])).stderr]⟩ :=
  c2_expand_fail_aborts_without_side_effects ["ws"] exExpandFailW fsEmptyW (by decide)

/-- C3: whenever the macro expansion succeeds with captured standard
output `T`, the staged artifact file `target/generated/expanded.rs`
under the root holds exactly `T`, whatever the initial filesystem held
at that path before (the write overwrites any prior content). -/
theorem c3_staged_artifact_equals_stdout
    (sd : FsPath) (ex : Invocation → ProcResult) (fs0 : FS) (out : RunOutput)
    (h0 : (ex (expandInv sd)).returncode = 0)
    (h : main sd ex fs0 = some out) :
    out.fs.read (stagedPath sd) = some ((ex (expandInv sd)).stdout) := by
  by_cases h2 : (ex (cbindgenInv sd)).returncode = 0
  · rw [main_of_ok sd ex fs0 h0 h2] at h
    cases h.symm
    simp [FS.read, mainFS]
  · rw [main_of_cbindgen_fail sd ex fs0 h0 h2] at h
    cases h.symm
    simp [FS.read, mainFS]

/-- C3 witness: the stub expansion output `pub fn foo();` ends up
byte-for-byte in the staged artifact, overwriting prior content. -/
theorem c3_witness :
    (mainFS ["ws"] exOkW ⟨[], [(stagedPath ["ws"], "stale")]⟩).read (stagedPath ["ws"]) =
      some ((exOkW (expandInv ["ws"])).stdout) :=
  c3_staged_artifact_equals_stdout ["ws"] exOkW ⟨[], [(stagedPath ["ws"], "stale")]⟩
    ⟨0, mainFS ["ws"] exOkW ⟨[], [(stagedPath ["ws"], "stale")]⟩,
     [expandInv ["ws"], cbindgenInv ["ws"]],
     stagedMsgs ["ws"] ++ ["✓ Generated " ++ FsPath.str (headerPath ["ws"])], []⟩
    (by decide)
    (main_of_ok ["ws"] exOkW ⟨[], [(stagedPath ["ws"], "stale")]⟩ (by decide) (by decide))

/-- C4: the pipeline exits 0 exactly when both external tools exited 0,
and exits 1 whenever either tool reported a non-zero exit code. -/
theorem c4_exit_code_iff_both_tools_succeed
    (sd : FsPath) (ex : Invocation → ProcResult) (fs0 : FS) (out : RunOutput)
    (h : main sd ex fs0 = some out) :
    (out.exitCode = 0 ↔
      ((ex (expandInv sd)).returncode = 0 ∧ (ex (cbindgenInv sd)).returncode = 0)) ∧
    (((ex (expandInv sd)).returncode ≠ 0 ∨ (ex (cbindgenInv sd)).returncode ≠ 0) →
      out.exitCode = 1) := by
  by_cases h1 : (ex (expandInv sd)).returncode = 0
  · by_cases h2 : (ex (cbindgenInv sd)).returncode = 0
    · rw [main_of_ok sd ex fs0 h1 h2] at h
      cases h.symm
      simp [h1, h2]
    · rw [main_of_cbindgen_fail sd ex fs0 h1 h2] at h
      cases h.symm
      simp [h1, h2]
  · rw [main_of_expand_fail sd ex fs0 h1] at h
    cases h.symm
    simp [h1]

/-- C4 witness: at a concrete failing binding-generation stub the exit
code is 1 and the iff holds. -/
theorem c4_witness :
    ((1 : Nat) = 0 ↔
      ((exCbindgenFailW (expandInv ["ws"])).returncode = 0 ∧
       (exCbindgenFailW (cbindgenInv ["ws"])).returncode = 0)) ∧
    (((exCbindgenFailW (expandInv ["ws"])).returncode ≠ 0 ∨
      (exCbindgenFailW (cbindgenInv ["ws"])).returncode ≠ 0) → (1 : Nat) = 1) :=
  c4_exit_code_iff_both_tools_succeed ["ws"] exCbindgenFailW fsEmptyW
    ⟨1, mainFS ["ws"] exCbindgenFailW fsEmptyW, [expandInv ["ws"], cbindgenInv ["ws"]],
     stagedMsgs ["ws"], ["Error: cbindgen failed", (exCbindgenFailW (cbindgenInv ["ws"])).stderr]⟩
    (main_of_cbindgen_fail ["ws"] exCbindgenFailW fsEmptyW (by decide) (by decide))

/-- C5: the workspace root resolved from the invoking script's location
is the script's grandparent directory when the script's immediate parent
directory is named `scripts`, and the script's parent directory
otherwise; the computation is a total function on paths. -/
theorem c5_root_resolution (script_file : FsPath) :
    (FsPath.name (FsPath.parent script_file) = "scripts" →
      resolveRoot (FsPath.parent script_file) =
        FsPath.parent (FsPath.parent script_file)) ∧
    (FsPath.name (FsPath.parent script_file) ≠ "scripts" →
      resolveRoot (FsPath.parent script_file) = FsPath.parent script_file) := by
  constructor
  · intro h; simp [resolveRoot, h]
  · intro h; simp [resolveRoot, h]

/-- C5 witness: for a script at `/ws/scripts/quick.py` the resolved
root is `/ws`. -/
theorem c5_witness :
    resolveRoot (FsPath.parent ["ws", "scripts", "quick.py"]) =
      FsPath.parent (FsPath.parent ["ws", "scripts", "quick.py"]) :=
  (c5_root_resolution ["ws", "scripts", "quick.py"]).1 (by decide)

/-- C6: every run performs either just the expansion invocation or the
expansion invocation followed by the binding-generation invocation; the
expansion tool is always called as `cargo expand --lib -p
eucalyptus-core` and the binding tool as `cbindgen --config
<root>/cbindgen.toml --output <root>/headers/dropbear.h
<root>/target/generated/expanded.rs`, both with the workspace root as
working directory. -/
theorem c6_invocation_shapes
    (sd : FsPath) (ex : Invocation → ProcResult) (fs0 : FS) (out : RunOutput)
    (h : main sd ex fs0 = some out) :
    out.invocations =
      [⟨["cargo", "expand", "--lib", "-p", "eucalyptus-core"], resolveRoot sd⟩] ∨
    out.invocations =
      [⟨["cargo", "expand", "--lib", "-p", "eucalyptus-core"], resolveRoot sd⟩,
       ⟨["cbindgen",
         "--config", FsPath.str (resolveRoot sd ++ ["cbindgen.toml"]),
         "--output", FsPath.str (resolveRoot sd ++ ["headers", "dropbear.h"]),
         FsPath.str (resolveRoot sd ++ ["target", "generated", "expanded.rs"])],
        resolveRoot sd⟩] := by
  by_cases h1 : (ex (expandInv sd)).returncode = 0
  · by_cases h2 : (ex (cbindgenInv sd)).returncode = 0
    · rw [main_of_ok sd ex fs0 h1 h2] at h
      cases h.symm
      right; simp [expandInv, cbindgenInv, headerPath, stagedPath]
    · rw [main_of_cbindgen_fail sd ex fs0 h1 h2] at h
      cases h.symm
      right; simp [expandInv, cbindgenInv, headerPath, stagedPath]
  · rw [main_of_expand_fail sd ex fs0 h1] at h
    cases h.symm
    left; simp [expandInv]

/-- C6 witness: concrete run performing both invocations. -/
theorem c6_witness :
    ([expandInv ["ws"], cbindgenInv ["ws"]] :
        List Invocation) =
      [⟨["cargo", "expand", "--lib", "-p", "eucalyptus-core"], resolveRoot ["ws"]⟩] ∨
    ([expandInv ["ws"], cbindgenInv ["ws"]] :
        List Invocation) =
      [⟨["cargo", "expand", "--lib", "-p", "eucalyptus-core"], resolveRoot ["ws"]⟩,
       ⟨["cbindgen",
         "--config", FsPath.str (resolveRoot ["ws"] ++ ["cbindgen.toml"]),
         "--output", FsPath.str (resolveRoot ["ws"] ++ ["headers", "dropbear.h"]),
         FsPath.str (resolveRoot ["ws"] ++ ["target", "generated", "expanded.rs"])],
        resolveRoot ["ws"]⟩] :=
  c6_invocation_shapes ["ws"] exOkW fsEmptyW
    ⟨0, mainFS ["ws"] exOkW fsEmptyW, [expandInv ["ws"], cbindgenInv ["ws"]],
     stagedMsgs ["ws"] ++ ["✓ Generated " ++ FsPath.str (headerPath ["ws"])], []⟩
    (main_of_ok ["ws"] exOkW fsEmptyW (by decide) (by decide))

/-- C7: against any initial filesystem — in particular one missing the
staging and output directories — a run with succeeding tools completes
with exit code 0, creates `target`, `target/generated` and `headers`
under the root (all missing intermediate directories included), and a
second run on the resulting filesystem again completes with exit code 0:
pre-existing directories never make the pipeline fail. -/
theorem c7_directories_lazy_idempotent
    (sd : FsPath) (ex : Invocation → ProcResult) (fs0 : FS)
    (h1 : (ex (expandInv sd)).returncode = 0)
    (h2 : (ex (cbindgenInv sd)).returncode = 0) :
    main sd ex fs0 = some ⟨0, mainFS sd ex fs0, [expandInv sd, cbindgenInv sd],
      stagedMsgs sd ++ ["✓ Generated " ++ FsPath.str (headerPath sd)], []⟩ ∧
    resolveRoot sd ++ ["target"] ∈ (mainFS sd ex fs0).dirs ∧
    resolveRoot sd ++ ["target", "generated"] ∈ (mainFS sd ex fs0).dirs ∧
    resolveRoot sd ++ ["headers"] ∈ (mainFS sd ex fs0).dirs ∧
    main sd ex (mainFS sd ex fs0) =
      some ⟨0, mainFS sd ex (mainFS sd ex fs0), [expandInv sd, cbindgenInv sd],
        stagedMsgs sd ++ ["✓ Generated " ++ FsPath.str (headerPath sd)], []⟩ := by
  refine ⟨main_of_ok sd ex fs0 h1 h2, ?_, ?_, ?_, main_of_ok sd ex _ h1 h2⟩
  · have hm := mem_prefixesOf_append (resolveRoot sd ++ ["target"]) ["generated"]
    rw [List.append_assoc] at hm
    simp only [mainFS, List.mem_append]
    exact Or.inr (Or.inl hm)
  · simp [mainFS, mem_prefixesOf_self]
  · simp [mainFS, mem_prefixesOf_self]

/-- C7 witness: a workspace with no directories at all. -/
theorem c7_witness :
    main ["ws"] exOkW fsEmptyW =
      some ⟨0, mainFS ["ws"] exOkW fsEmptyW, [expandInv ["ws"], cbindgenInv ["ws"]],
        stagedMsgs ["ws"] ++ ["✓ Generated " ++ FsPath.str (headerPath ["ws"])], []⟩ ∧
    resolveRoot ["ws"] ++ ["target"] ∈ (mainFS ["ws"] exOkW fsEmptyW).dirs ∧
    resolveRoot ["ws"] ++ ["target", "generated"] ∈ (mainFS ["ws"] exOkW fsEmptyW).dirs ∧
    resolveRoot ["ws"] ++ ["headers"] ∈ (mainFS ["ws"] exOkW fsEmptyW).dirs ∧
    main ["ws"] exOkW (mainFS ["ws"] exOkW fsEmptyW) =
      some ⟨0, mainFS ["ws"] exOkW (mainFS ["ws"] exOkW fsEmptyW),
        [expandInv ["ws"], cbindgenInv ["ws"]],
        stagedMsgs ["ws"] ++ ["✓ Generated " ++ FsPath.str (headerPath ["ws"])], []⟩ :=
  c7_directories_lazy_idempotent ["ws"] exOkW fsEmptyW (by decide) (by decide)

/-- C8: when binding generation fails after a successful expansion, the
pipeline exits with code 1, the error channel holds the fixed label
`Error: cbindgen failed` followed by the tool's captured stderr
verbatim, and no cleanup happens: the staged artifact file still holds
exactly the expansion's standard output. -/
theorem c8_cbindgen_fail_keeps_artifact
    (sd : FsPath) (ex : Invocation → ProcResult) (fs0 : FS)
    (h1 : (ex (expandInv sd)).returncode = 0)
    (h2 : (ex (cbindgenInv sd)).returncode ≠ 0) :
    main sd ex fs0 = some ⟨1, mainFS sd ex fs0, [expandInv sd, cbindgenInv sd],
      stagedMsgs sd, ["Error: cbindgen failed", (ex (cbindgenInv sd)).stderr]⟩ ∧
    (mainFS sd ex fs0).read (stagedPath sd) = some ((ex (expandInv sd)).stdout) := by
  refine ⟨main_of_cbindgen_fail sd ex fs0 h1 h2, ?_⟩
  simp [FS.read, mainFS]

/-- C8 witness: a stub binding tool failing with stderr `bad config`;
the error channel carries `bad config` and the staged artifact survives. -/
theorem c8_witness :
    main ["ws"] exCbindgenFailW fsEmptyW =
      some ⟨1, mainFS ["ws"] exCbindgenFailW fsEmptyW,
        [expandInv ["ws"], cbindgenInv ["ws"]], stagedMsgs ["ws"],
        ["Error: cbindgen failed", (exCbindgenFailW (cbindgenInv ["ws"])).stderr]⟩ ∧
    (mainFS ["ws"] exCbindgenFailW fsEmptyW).read (stagedPath ["ws"]) =
      some ((exCbindgenFailW (expandInv ["ws"])).stdout) :=
  c8_cbindgen_fail_keeps_artifact ["ws"] exCbindgenFailW fsEmptyW (by decide) (by decide)

/-- C9: running the pipeline twice in a row with the same tool behaviour
yields the same invocations, the same exit code, the same printed lines
and the same staged artifact content both times, and the second run is
not disturbed by the artifacts the first run left behind. -/
theorem c9_rerun_idempotent
    (sd : FsPath) (ex : Invocation → ProcResult) (fs0 : FS) (out1 out2 : RunOutput)
    (h1 : main sd ex fs0 = some out1)
    (h2 : main sd ex out1.fs = some out2) :
    out2.invocations = out1.invocations ∧
    out2.exitCode = out1.exitCode ∧
    out2.fs.read (stagedPath sd) = out1.fs.read (stagedPath sd) ∧
    out2.stdoutMsgs = out1.stdoutMsgs ∧
    out2.stderrMsgs = out1.stderrMsgs := by
  by_cases ha : (ex (expandInv sd)).returncode = 0
  · by_cases hb : (ex (cbindgenInv sd)).returncode = 0
    · rw [main_of_ok sd ex fs0 ha hb] at h1
      cases h1.symm
      rw [main_of_ok sd ex _ ha hb] at h2
      cases h2.symm
      refine ⟨rfl, rfl, ?_, rfl, rfl⟩
      simp [FS.read, mainFS]
    · rw [main_of_cbindgen_fail sd ex fs0 ha hb] at h1
      cases h1.symm
      rw [main_of_cbindgen_fail sd ex _ ha hb] at h2
      cases h2.symm
      refine ⟨rfl, rfl, ?_, rfl, rfl⟩
      simp [FS.read, mainFS]
  · rw [main_of_expand_fail sd ex fs0 ha] at h1
    cases h1.symm
    rw [main_of_expand_fail sd ex _ ha] at h2
    cases h2.symm
    exact ⟨rfl, rfl, rfl, rfl, rfl⟩

/-- C9 witness: two consecutive runs with the fixed succeeding stub
toolchain agree on invocations, exit code, output and staged content. -/
theorem c9_witness :
    (⟨0, mainFS ["ws"] exOkW (mainFS ["ws"] exOkW fsEmptyW),
       [expandInv ["ws"], cbindgenInv ["ws"]],
       stagedMsgs ["ws"] ++ ["✓ Generated " ++ FsPath.str (headerPath ["ws"])],
       []⟩ : RunOutput).invocations =
      (⟨0, mainFS ["ws"] exOkW fsEmptyW, [expandInv ["ws"], cbindgenInv ["ws"]],
        stagedMsgs ["ws"] ++ ["✓ Generated " ++ FsPath.str (headerPath ["ws"])],
        []⟩ : RunOutput).invocations ∧
    (⟨0, mainFS ["ws"] exOkW (mainFS ["ws"] exOkW fsEmptyW),
       [expandInv ["ws"], cbindgenInv ["ws"]],
       stagedMsgs ["ws"] ++ ["✓ Generated " ++ FsPath.str (headerPath ["ws"])],
       []⟩ : RunOutput).exitCode =
      (⟨0, mainFS ["ws"] exOkW fsEmptyW, [expandInv ["ws"], cbindgenInv ["ws"]],
        stagedMsgs ["ws"] ++ ["✓ Generated " ++ FsPath.str (headerPath ["ws"])],
        []⟩ : RunOutput).exitCode ∧
    (⟨0, mainFS ["ws"] exOkW (mainFS ["ws"] exOkW fsEmptyW),
       [expandInv ["ws"], cbindgenInv ["ws"]],
       stagedMsgs ["ws"] ++ ["✓ Generated " ++ FsPath.str (headerPath ["ws"])],
       []⟩ : RunOutput).fs.read (stagedPath ["ws"]) =
      (⟨0, mainFS ["ws"] exOkW fsEmptyW, [expandInv ["ws"], cbindgenInv ["ws"]],
        stagedMsgs ["ws"] ++ ["✓ Generated " ++ FsPath.str (headerPath ["ws"])],
        []⟩ : RunOutput).fs.read (stagedPath ["ws"]) ∧
    (⟨0, mainFS ["ws"] exOkW (mainFS ["ws"] exOkW fsEmptyW),
       [expandInv ["ws"], cbindgenInv ["ws"]],
       stagedMsgs ["ws"] ++ ["✓ Generated " ++ FsPath.str (headerPath ["ws"])],
       []⟩ : RunOutput).stdoutMsgs =
      (⟨0, mainFS ["ws"] exOkW fsEmptyW, [expandInv ["ws"], cbindgenInv ["ws"]],
        stagedMsgs ["ws"] ++ ["✓ Generated " ++ FsPath.str (headerPath ["ws"])],
        []⟩ : RunOutput).stdoutMsgs ∧
    (⟨0, mainFS ["ws"] exOkW (mainFS ["ws"] exOkW fsEmptyW),
       [expandInv ["ws"], cbindgenInv ["ws"]],
       stagedMsgs ["ws"] ++ ["✓ Generated " ++ FsPath.str (headerPath ["ws"])],
       []⟩ : RunOutput).stderrMsgs =
      (⟨0, mainFS ["ws"] exOkW fsEmptyW, [expandInv ["ws"], cbindgenInv ["ws"]],
        stagedMsgs ["ws"] ++ ["✓ Generated " ++ FsPath.str (headerPath ["ws"])],
        []⟩ : RunOutput).stderrMsgs :=
  c9_rerun_idempotent ["ws"] exOkW fsEmptyW _ _
    (main_of_ok ["ws"] exOkW fsEmptyW (by decide) (by decide))
    (main_of_ok ["ws"] exOkW _ (by decide) (by decide))

/-- C10: the stderr text of a zero-exit tool invocation never influences
the run: two toolchains agreeing on every exit code and every standard
output, and on the stderr of every non-zero-exit invocation, give
byte-identical runs (same filesystem, invocations, messages and exit
code); captured stderr is surfaced only for non-zero exit codes. -/
theorem c10_zero_exit_stderr_irrelevant
    (sd : FsPath) (ex1 ex2 : Invocation → ProcResult) (fs0 : FS)
    (hrc : ∀ i, (ex1 i).returncode = (ex2 i).returncode)
    (hout : ∀ i, (ex1 i).stdout = (ex2 i).stdout)
    (herr : ∀ i, (ex1 i).returncode ≠ 0 → (ex1 i).stderr = (ex2 i).stderr) :
    main sd ex1 fs0 = main sd ex2 fs0 := by
  by_cases ha : (ex1 (expandInv sd)).returncode = 0
  · have ha2 : (ex2 (expandInv sd)).returncode = 0 := by rw [← hrc]; exact ha
    by_cases hb : (ex1 (cbindgenInv sd)).returncode = 0
    · have hb2 : (ex2 (cbindgenInv sd)).returncode = 0 := by rw [← hrc]; exact hb
      rw [main_of_ok sd ex1 fs0 ha hb, main_of_ok sd ex2 fs0 ha2 hb2]
      simp [mainFS, hout]
    · have hb2 : (ex2 (cbindgenInv sd)).returncode ≠ 0 := by rw [← hrc]; exact hb
      rw [main_of_cbindgen_fail sd ex1 fs0 ha hb,
        main_of_cbindgen_fail sd ex2 fs0 ha2 hb2]
      simp [mainFS, hout, herr (cbindgenInv sd) hb]
  · have ha2 : (ex2 (expandInv sd)).returncode ≠ 0 := by rw [← hrc]; exact ha
    rw [main_of_expand_fail sd ex1 fs0 ha, main_of_expand_fail sd ex2 fs0 ha2]
    simp [herr (expandInv sd) ha]

/-- C10 witness: two all-zero-exit stubs differing only in stderr noise
give identical runs. -/
theorem c10_witness :
    main ["ws"] exNoiseAW fsEmptyW = main ["ws"] exNoiseBW fsEmptyW :=
  c10_zero_exit_stderr_irrelevant ["ws"] exNoiseAW exNoiseBW fsEmptyW
    (fun _ => rfl) (fun _ => rfl) (fun _ h => absurd rfl h)

/-- C1 counterexample: with a stub whose expansion succeeds with exit
code 0 but empty standard output, the binding generator is still
invoked while the persisted staged text is empty — refuting the claim
that binding generation never runs unless non-empty expanded text was
persisted. -/
theorem c1_counterexample :
    (main ["ws"] exEmptyOutW fsEmptyW).map
        (fun o => (o.invocations.contains (cbindgenInv ["ws"]),
                   o.fs.read (stagedPath ["ws"]))) =
      some (true, some "") ∧
    (exEmptyOutW (expandInv ["ws"])).returncode = 0 := by
  constructor
  · rw [main_of_ok ["ws"] exEmptyOutW fsEmptyW (by decide) (by decide)]
    simp [Option.map]
    decide
  · decide

/-- C1 (amended): the binding generator is invoked only in runs whose
macro expansion exited with code 0 and whose captured standard output —
possibly empty — has been persisted byte-for-byte to the staged artifact
file before the invocation. -/
theorem c1_binding_needs_staged_expansion
    (sd : FsPath) (ex : Invocation → ProcResult) (fs0 : FS) (out : RunOutput)
    (h : main sd ex fs0 = some out)
    (hinv : cbindgenInv sd ∈ out.invocations) :
    (ex (expandInv sd)).returncode = 0 ∧
    out.fs.read (stagedPath sd) = some ((ex (expandInv sd)).stdout) := by
  by_cases ha : (ex (expandInv sd)).returncode = 0
  · refine ⟨ha, ?_⟩
    by_cases hb : (ex (cbindgenInv sd)).returncode = 0
    · rw [main_of_ok sd ex fs0 ha hb] at h
      cases h.symm
      simp [FS.read, mainFS]
    · rw [main_of_cbindgen_fail sd ex fs0 ha hb] at h
      cases h.symm
      simp [FS.read, mainFS]
  · rw [main_of_expand_fail sd ex fs0 ha] at h
    cases h.symm
    simp at hinv
    exact absurd hinv (cbindgenInv_ne_expandInv sd)

/-- C1 witness: a concrete successful run in which cbindgen was invoked
and the staged artifact holds the expansion output. -/
theorem c1_witness :
    (exOkW (expandInv ["ws"])).returncode = 0 ∧
    (⟨0, mainFS ["ws"] exOkW fsEmptyW, [expandInv ["ws"], cbindgenInv ["ws"]],
      stagedMsgs ["ws"] ++ ["✓ Generated " ++ FsPath.str (headerPath ["ws"])],
      []⟩ : RunOutput).fs.read (stagedPath ["ws"]) =
      some ((exOkW (expandInv ["ws"])).stdout) :=
  c1_binding_needs_staged_expansion ["ws"] exOkW fsEmptyW
    ⟨0, mainFS ["ws"] exOkW fsEmptyW, [expandInv ["ws"], cbindgenInv ["ws"]],
     stagedMsgs ["ws"] ++ ["✓ Generated " ++ FsPath.str (headerPath ["ws"])], []⟩
    (main_of_ok ["ws"] exOkW fsEmptyW (by decide) (by decide))
    (by simp)

end Dropbear
